import Mathlib

/-!
Shallow embedding of `src/spyder/plugins/completion/languageserver/client.py`
(class `LSPClient`): Python dicts become association lists, the mutable
client object becomes an explicit `ClientState`, Qt signal emissions become
counted/collected events, and the zmq channel plus process liveness checks
become oracles passed in as parameters.  Theorems at the end of the file
check the specification's claims against these definitions.
-/

namespace Spyder

/-- Association-list model of a Python `dict`: the key's first occurrence
holds its value; assignment replaces in place or appends at the end. -/
abbrev AList (α β : Type) := List (α × β)

/-- Dict lookup (`d[k]` / `d.get(k)`): value at the first occurrence of the
key, or `none` when the key is absent. -/
def alookup {α β : Type} [DecidableEq α] : AList α β → α → Option β
  | [], _ => none
  | (k, v) :: t, k' => if k' = k then some v else alookup t k'

/-- Dict assignment (`d[k] = v`): replace the value at the first occurrence
of the key in place, or append a fresh entry. -/
def ainsert {α β : Type} [DecidableEq α] : AList α β → α → β → AList α β
  | [], k, v => [(k, v)]
  | (k0, v0) :: t, k, v =>
      if k = k0 then (k, v) :: t else (k0, v0) :: ainsert t k v

/-- Dict removal (`d.pop(k)`): drop the first occurrence of the key. -/
def aerase {α β : Type} [DecidableEq α] : AList α β → α → AList α β
  | [], _ => []
  | (k0, v0) :: t, k => if k = k0 then t else (k0, v0) :: aerase t k

/-- A well-formed dict has no duplicate keys (every key's tail lookup is
empty). -/
def nodupKeys {α β : Type} [DecidableEq α] : AList α β → Bool
  | [] => true
  | (k, _) :: t => (alookup t k).isNone && nodupKeys t

/-- Dict merge (`d.update(e)`): assign every entry of `e` into `d`. -/
def aupdate {α β : Type} [DecidableEq α] (s p : AList α β) : AList α β :=
  p.foldl (fun acc e => ainsert acc e.1 e.2) s

/-- Message kinds consumed by `LSPClient.send` (the `MessageKind` enum from
the transport module: REQUEST, RESPONSE, NOTIFICATION). -/
inductive MessageKind where
  | request
  | response
  | notification
deriving DecidableEq, Repr

/-- The `params` dict handed to `send` / `perform_request`, abstracted to
exactly the keys the client itself inspects: presence of the reserved
cancel sentinel key (`ClientConstants.CANCEL in params`), the optional
`response_callback` entry (callbacks are numbered by opaque tokens), the
optional `requires_response` entry, and an opaque tag for the rest of the
payload. -/
structure Params where
  hasCancel : Bool
  response_callback : Option Nat
  requires_response : Option Bool
  payload : Nat
deriving DecidableEq, Repr

/-- Wire messages built by `send` (lines 372-388 of client.py). -/
inductive Msg where
  | request (id : Int) (method : String) (params : Params)
  | response (id : Int) (result : Params)
  | notification (method : String) (params : Params)
deriving DecidableEq, Repr

/-- The mutable fields of an `LSPClient` instance that the modelled methods
read or write: language tag, the `request_seq` counter, the two in-flight
tables (`req_status : id → method`, `req_reply : id → callback token` —
keyed by `Option Int` because `perform_request` can register a callback
under the `None` returned by a failed send), the two one-shot
unresponsiveness flags, and the handshake flags. -/
structure ClientState where
  language : String
  request_seq : Int
  req_status : AList Int String
  req_reply : AList (Option Int) Nat
  transport_unresponsive : Bool
  server_unresponsive : Bool
  initialized : Bool
  ready_to_close : Bool
deriving DecidableEq, Repr

/-- Liveness environment for one `is_down` poll: which process handles are
present (truthiness of `self.transport`, `self.server`, `self.stdio_pid`)
and what the corresponding aliveness queries report
(`is_transport_alive`, `is_server_alive`, `is_stdio_alive`; the latter's
psutil internals are abstracted as an oracle). -/
structure Liveness where
  transport_present : Bool
  transport_alive : Bool
  server_present : Bool
  server_alive : Bool
  stdio_present : Bool
  stdio_alive : Bool
deriving DecidableEq, Repr

/-- Result of one `is_down` call: the updated client state, the returned
boolean, and one flag per category recording whether that category's block
emitted `sig_went_down` during this call. -/
structure DownResult where
  state : ClientState
  down : Bool
  transportEmit : Bool
  serverEmit : Bool
  stdioEmit : Bool
deriving DecidableEq, Repr

/-- Model of `LSPClient.is_down` (lines 334-362).  The source runs three
sequential blocks (transport, server, stdio); each emits `sig_went_down`
and latches its unresponsiveness flag the first time its category is seen
down.  The server and stdio blocks share the `server_unresponsive` flag,
so the stdio block emits only when neither the flag was already set nor
the server block just set it. -/
def is_down (l : Liveness) (s : ClientState) : DownResult :=
  let tDown := l.transport_present && !l.transport_alive
  let svDown := l.server_present && !l.server_alive
  let stDown := l.stdio_present && !l.stdio_alive
  { state :=
      { s with
        transport_unresponsive := s.transport_unresponsive || tDown,
        server_unresponsive := s.server_unresponsive || svDown || stDown },
    down := tDown || svDown || stDown,
    transportEmit := tDown && !s.transport_unresponsive,
    serverEmit := svDown && !s.server_unresponsive,
    stdioEmit := stDown && !(s.server_unresponsive || svDown) }

/-- Number of `sig_went_down` emissions produced by one `is_down` call. -/
def DownResult.emitCount (d : DownResult) : Nat :=
  (if d.transportEmit then 1 else 0) + (if d.serverEmit then 1 else 0) +
    (if d.stdioEmit then 1 else 0)

/-- Liveness environments in which no `is_down` condition fires (every
present process is alive), so a poll neither reports down nor emits. -/
def healthy (l : Liveness) : Prop :=
  (l.transport_present && !l.transport_alive) = false ∧
  (l.server_present && !l.server_alive) = false ∧
  (l.stdio_present && !l.stdio_alive) = false

/-- Outcome of the non-blocking send loop in `send` (lines 394-409):
success at attempt `k`, or abandonment after attempt `k` once the elapsed
time exceeded the budget.  `fuelOut` is an artifact of the fuelled
recursion and is unreachable under the timing model. -/
inductive LoopOut where
  | ok (k : Nat)
  | giveUp (k : Nat)
  | fuelOut
deriving DecidableEq, Repr

/-- The retry loop of `send`: attempt `k` is made at time `t k`
(milliseconds since the first attempt; the code sleeps 100 ms between
attempts, which is the hypothesis `t k + 100 ≤ t (k+1)` in the theorems).
A failed attempt checks `time.time() > timeout_time`, i.e. `1000 < t k`,
and gives up emitting `sig_went_down`; otherwise it retries.  Twelve units
of fuel suffice because `t` grows by at least 100 per attempt. -/
def retryLoop (t : Nat → Nat) (chan : Nat → Bool) : Nat → Nat → LoopOut
  | 0, _ => .fuelOut
  | fuel + 1, k =>
      if chan k then .ok k
      else if 1000 < t k then .giveUp k
      else retryLoop t chan fuel (k + 1)

/-- Result of one `send` call: updated state, the returned id (`none` for
the bare `return` paths), the messages actually handed to the channel, the
number of `sig_went_down` emissions, and the number of channel attempts. -/
structure SendResult where
  state : ClientState
  result : Option Int
  transmitted : List Msg
  wentDown : Nat
  attempts : Nat
deriving DecidableEq, Repr

/-- Model of `LSPClient.send` (lines 364-409).  Order follows the source:
first `is_down` (early return when down), then the cancel-sentinel check,
then the message is built — a REQUEST also records `req_status[id] =
method` before any channel attempt — and finally the retry loop; only a
successful transmission advances `request_seq` and returns the id. -/
def send (l : Liveness) (t : Nat → Nat) (chan : Nat → Bool) (s : ClientState)
    (method : String) (params : Params) (kind : MessageKind) : SendResult :=
  let d := is_down l s
  if d.down then ⟨d.state, none, [], d.emitCount, 0⟩
  else if params.hasCancel then ⟨d.state, none, [], d.emitCount, 0⟩
  else
    let i := d.state.request_seq
    let ms : Msg × ClientState :=
      match kind with
      | .request =>
          (.request i method params,
           { d.state with req_status := ainsert d.state.req_status i method })
      | .response => (.response i params, d.state)
      | .notification => (.notification method params, d.state)
    match retryLoop t chan 12 0 with
    | .ok k =>
        ⟨{ ms.2 with request_seq := ms.2.request_seq + 1 }, some i, [ms.1],
          d.emitCount, k + 1⟩
    | .giveUp k => ⟨ms.2, none, [], d.emitCount + 1, k + 1⟩
    | .fuelOut => ⟨ms.2, none, [], d.emitCount, 12⟩

/-- Environment flags read by `on_msg_received`: `get_debug_level()` and
the `DEV` constant (both live outside src/, so they are plain inputs). -/
structure Config where
  debug_level : Nat
  dev : Bool
deriving DecidableEq, Repr

/-- The `error` value of an inbound payload: optional `message` field and
the optional `data.traceback` list. -/
structure ErrVal where
  message : Option String
  traceback : Option (List String)
deriving DecidableEq, Repr

/-- An inbound payload, abstracted to key presence as the dispatch code
tests it: `id`, `method`, `result` (outer option = key present, inner
option = value non-null; the value itself is an opaque tag) and `error`. -/
structure Resp where
  id : Option Int
  method : Option String
  result : Option (Option Nat)
  error : Option ErrVal
deriving DecidableEq, Repr

/-- Observable effects of processing one inbound message: the two Qt
signals and the two kinds of dynamic invocation (`req_reply` completion
callback called with a null result; registry handler called with a result
or with notification params). -/
inductive Event where
  | sigWentDown (language : String)
  | sigServerError (text : String)
  | callbackNull (id : Int)
  | handlerResult (method : String) (id : Int)
  | handlerMethod (method : String)
deriving DecidableEq, Repr

/-- The `sig_server_error` emissions of the error branch (lines 430-440):
only in debug or development mode, and only when a traceback is present;
the emitted text is the joined traceback, a newline, and the message. -/
def errorEvents (cfg : Config) (err : ErrVal) : List Event :=
  if 0 < cfg.debug_level || cfg.dev then
    match err.traceback with
    | some tb => [Event.sigServerError (String.join tb ++ "\n" ++ err.message.getD "")]
    | none => []
  else []

/-- Model of the per-message body of `LSPClient.on_msg_received` (lines
427-464).  `Except.error ()` marks the uncaught Python exceptions of that
body: the `KeyError` from `resp['id']` in the error and result branches
and the `IndexError` from `resp['method'][0]` on an empty method.  The
error branch acts only for python-language sessions and pops nothing; the
method branch (methods not starting with the `$` sigil) overwrites
`request_seq` with a carried id and dispatches to the handler registry;
the result branch ignores null results, silently drops unknown ids, and
pops both tables only when a registered handler ran.  Handler bodies are
external to this model; their invocation is recorded as an event. -/
def handleMsg (cfg : Config) (registry : String → Bool) (s : ClientState)
    (resp : Resp) : Except Unit (ClientState × List Event) :=
  match resp.error with
  | some err =>
      if s.language = "python" then
        match resp.id with
        | none => Except.error ()
        | some req_id =>
            match alookup s.req_reply (some req_id) with
            | some _ => Except.ok (s, errorEvents cfg err ++ [Event.callbackNull req_id])
            | none => Except.ok (s, errorEvents cfg err)
      else Except.ok (s, [])
  | none =>
      match resp.method with
      | some m =>
          if m = "" then Except.error ()
          else if m.front ≠ '$' then
            let s1 := match resp.id with
              | some i => { s with request_seq := i }
              | none => s
            if registry m then Except.ok (s1, [Event.handlerMethod m])
            else Except.ok (s1, [])
          else Except.ok (s, [])
      | none =>
          match resp.result with
          | some (some _r) =>
              match resp.id with
              | none => Except.error ()
              | some req_id =>
                  match alookup s.req_status req_id with
                  | some req_type =>
                      if registry req_type then
                        Except.ok
                          ({ s with
                              req_status := aerase s.req_status req_id,
                              req_reply := aerase s.req_reply (some req_id) },
                           [Event.handlerResult req_type req_id])
                      else Except.ok (s, [])
                  | none => Except.ok (s, [])
          | some none => Except.ok (s, [])
          | none => Except.ok (s, [])

/-- Model of `LSPClient.perform_request` (lines 473-481).  `hasSender`
models `method in self.sender_registry`; `sentId` abstracts the value of
`_id = handler(params)` (the decorated sender's send result, which can be
`None` when the send failed).  The outer option of the returned id
distinguishes the no-sender fall-through (Python's implicit `None`).  The
`KeyError` from reading `params['requires_response']` when only
`response_callback` is present is `Except.error ()`. -/
def perform_request (hasSender : Bool) (sentId : Option Int) (s : ClientState)
    (params : Params) : Except Unit (ClientState × Option (Option Int)) :=
  if hasSender then
    match params.response_callback with
    | some cb =>
        match params.requires_response with
        | none => Except.error ()
        | some flag =>
            if flag then
              Except.ok ({ s with req_reply := ainsert s.req_reply sentId cb },
                some sentId)
            else Except.ok (s, some sentId)
    | none => Except.ok (s, some sentId)
  else Except.ok (s, none)

/-- Iterate `is_down` under a fixed liveness environment, totalling the
per-category `sig_went_down` emissions over `n` polls. -/
def pollCounts (l : Liveness) : ClientState → Nat → ClientState × Nat × Nat × Nat
  | s, 0 => (s, 0, 0, 0)
  | s, n + 1 =>
      let d := is_down l s
      let rest := pollCounts l d.state n
      (rest.1,
       (if d.transportEmit then 1 else 0) + rest.2.1,
       (if d.serverEmit then 1 else 0) + rest.2.2.1,
       (if d.stdioEmit then 1 else 0) + rest.2.2.2)

/-- The key normalized and possibly removed by
`process_server_capabilities`. -/
def tdsKey : String := "textDocumentSync"

/-- Fields of the structured text-document-sync options object. -/
structure SyncOpts where
  openClose : Bool
  change : Int
  willSave : Bool
  save : Bool
deriving DecidableEq, Repr

/-- Modelled from the spec: `TEXT_DOCUMENT_SYNC_OPTIONS`, the structured
default sync-options object imported from the languageserver constants
module (which is not under src/).  The spec only requires that scalar sync
modes are "normalized into structured option objects"; the `change` field
is overwritten with the scalar by the normalization. -/
def TEXT_DOCUMENT_SYNC_OPTIONS : SyncOpts :=
  { openClose := true, change := 0, willSave := true, save := true }

/-- Values stored in a capability map: integers, explicit null, the
structured sync options object, or opaque other values. -/
inductive CapVal where
  | vint (k : Int)
  | vnull
  | vsync (o : SyncOpts)
  | vother (tag : Nat)
deriving DecidableEq, Repr

/-- A capability set: mapping from capability name to structured value. -/
abbrev CapMap := AList String CapVal

/-- First normalization step on the incoming capability payload (lines
517-520): an integer `textDocumentSync` is replaced in place by the
structured options object with its `change` field set to that integer. -/
def normStep1 (payload : CapMap) : CapMap :=
  match alookup payload tdsKey with
  | some (CapVal.vint k) =>
      ainsert payload tdsKey
        (CapVal.vsync { TEXT_DOCUMENT_SYNC_OPTIONS with change := k })
  | _ => payload

/-- Second normalization step (lines 521-522): after the scalar rewrite, a
still-null `textDocumentSync` entry is popped from the payload. -/
def normStep2 (p1 : CapMap) : CapMap :=
  match alookup p1 tdsKey with
  | some CapVal.vnull => aerase p1 tdsKey
  | _ => p1

/-- The in-place normalization of the incoming capability payload. -/
def normalizePayload (payload : CapMap) : CapMap :=
  normStep2 (normStep1 payload)

/-- Model of the capability merge in
`LSPClient.process_server_capabilities` (lines 515-524): reading
`textDocumentSync` raises `KeyError` (`none`) when the key is absent;
otherwise the normalized payload is merged into the session's
server-capability set with `dict.update`. -/
def process_server_capabilities (state payload : CapMap) : Option CapMap :=
  match alookup payload tdsKey with
  | none => none
  | some _ => some (aupdate state (normalizePayload payload))

/-- The list is a run of consecutive integers starting at the given
value. -/
def consecFrom : Int → List Int → Prop
  | _, [] => True
  | a, x :: xs => x = a ∧ consecFrom (a + 1) xs

instance consecFromDec : (a : Int) → (xs : List Int) → Decidable (consecFrom a xs)
  | _, [] => .isTrue trivial
  | a, x :: t =>
      have : Decidable (consecFrom (a + 1) t) := consecFromDec (a + 1) t
      inferInstanceAs (Decidable (x = a ∧ consecFrom (a + 1) t))

/-- A channel that always reports the transient would-block condition
(`zmq.error.Again` on every attempt). -/
def chanBlocked : Nat → Bool := fun _ => false

/-- A channel whose first attempt succeeds. -/
def ch1 : Nat → Bool := fun _ => true

/-- Idealized attempt clock: attempt `k` happens exactly `100 * k`
milliseconds after the first (the 100 ms sleep with no scheduling
overhead). -/
def t0 : Nat → Nat := fun k => 100 * k

/-- Liveness environment of a freshly constructed client: no process
handles yet, nothing down. -/
def lvNone : Liveness := ⟨false, true, false, true, false, true⟩

/-- Liveness environment whose transport process has exited while the
other categories are fine. -/
def lvT : Liveness := ⟨true, false, false, true, false, true⟩

/-- Environment with no debugging: `get_debug_level() = 0`, not DEV. -/
def cfg0 : Config := ⟨0, false⟩

/-- Environment with `get_debug_level() = 1` (debug mode on). -/
def cfgDbg : Config := ⟨1, false⟩

/-- A handler registry with no registered methods. -/
def reg0 : String → Bool := fun _ => false

/-- Plain params: no cancel sentinel, no callback keys. -/
def p0 : Params := ⟨false, none, none, 0⟩

/-- Params carrying the reserved cancel sentinel key. -/
def pCancel : Params := ⟨true, none, none, 0⟩

/-- Fresh python-language client state (`request_seq = 1`, empty
tables). -/
def st0 : ClientState := ⟨"python", 1, [], [], false, false, false, false⟩

/-- Python-language state with one in-flight request (id 1, method "m",
callback token 5). -/
def stP : ClientState := ⟨"python", 3, [(1, "m")], [(some 1, 5)], false, false, false, false⟩

/-- Non-python (language "r") state with one in-flight request (id 3,
method "m", callback token 7). -/
def stR : ClientState := ⟨"r", 5, [(3, "m")], [(some 3, 7)], false, false, true, false⟩

instance {ε α : Type} [DecidableEq ε] [DecidableEq α] :
    DecidableEq (Except ε α) := fun x y =>
  match x, y with
  | .ok a, .ok b =>
      if h : a = b then .isTrue (h ▸ rfl)
      else .isFalse (fun he => h (Except.ok.inj he))
  | .error a, .error b =>
      if h : a = b then .isTrue (h ▸ rfl)
      else .isFalse (fun he => h (Except.error.inj he))
  | .ok _, .error _ => .isFalse (fun he => Except.noConfusion he)
  | .error _, .ok _ => .isFalse (fun he => Except.noConfusion he)

section AListLemmas

variable {α β : Type} [DecidableEq α]

theorem alookup_ainsert (s : AList α β) (k : α) (v : β) (k' : α) :
    alookup (ainsert s k v) k' = if k' = k then some v else alookup s k' := by
  induction s with
  | nil => simp [ainsert, alookup]
  | cons e t ih =>
      obtain ⟨k0, v0⟩ := e
      by_cases hk : k = k0
      · subst hk
        by_cases h' : k' = k <;> simp [ainsert, alookup, h']
      · by_cases h' : k' = k0
        · subst h'
          simp [ainsert, alookup, hk, Ne.symm hk]
        · simp [ainsert, alookup, hk, h', ih]

theorem alookup_ainsert_self (s : AList α β) (k : α) (v : β) :
    alookup (ainsert s k v) k = some v := by
  simp [alookup_ainsert]

theorem ainsert_self (s : AList α β) (k : α) (v : β)
    (h : alookup s k = some v) : ainsert s k v = s := by
  induction s with
  | nil => simp [alookup] at h
  | cons e t ih =>
      obtain ⟨k0, v0⟩ := e
      by_cases hk : k = k0
      · subst hk
        simp [alookup] at h
        simp [ainsert, h]
      · simp [alookup, hk] at h
        simp [ainsert, hk, ih h]

theorem nodupKeys_ainsert (s : AList α β) (k : α) (v : β)
    (h : nodupKeys s = true) : nodupKeys (ainsert s k v) = true := by
  induction s with
  | nil => simp [ainsert, nodupKeys, alookup]
  | cons e t ih =>
      obtain ⟨k0, v0⟩ := e
      simp [nodupKeys] at h
      by_cases hk : k = k0
      · subst hk
        simp [ainsert, nodupKeys, h.1, h.2]
      · simp [ainsert, hk, nodupKeys, alookup_ainsert, Ne.symm hk,
          h.1, ih h.2]

theorem alookup_aerase_other (s : AList α β) (k k' : α) (h : k' ≠ k) :
    alookup (aerase s k) k' = alookup s k' := by
  induction s with
  | nil => simp [aerase]
  | cons e t ih =>
      obtain ⟨k0, v0⟩ := e
      by_cases hk : k = k0
      · subst hk
        simp [aerase, alookup, h]
      · simp [aerase, hk, alookup, ih]

theorem alookup_aerase_self (s : AList α β) (k : α)
    (h : nodupKeys s = true) : alookup (aerase s k) k = none := by
  induction s with
  | nil => simp [aerase, alookup]
  | cons e t ih =>
      obtain ⟨k0, v0⟩ := e
      simp [nodupKeys] at h
      by_cases hk : k = k0
      · subst hk
        simpa [aerase] using h.1
      · simp [aerase, hk, alookup, hk, ih h.2]

theorem nodupKeys_aerase (s : AList α β) (k : α)
    (h : nodupKeys s = true) : nodupKeys (aerase s k) = true := by
  induction s with
  | nil => simp [aerase, nodupKeys]
  | cons e t ih =>
      obtain ⟨k0, v0⟩ := e
      simp [nodupKeys] at h
      by_cases hk : k = k0
      · subst hk
        simp [aerase, h.2]
      · by_cases hk' : k0 = k
        · exact absurd hk'.symm hk
        · simp [aerase, hk, nodupKeys, alookup_aerase_other t k k0 hk',
            h.1, ih h.2]

theorem mem_alookup (s : AList α β) (k : α) (v : β)
    (hnd : nodupKeys s = true) (h : (k, v) ∈ s) : alookup s k = some v := by
  induction s with
  | nil => simp at h
  | cons e t ih =>
      obtain ⟨k0, v0⟩ := e
      simp [nodupKeys] at hnd
      rcases List.mem_cons.1 h with h1 | h1
      · obtain ⟨hk, hv⟩ := Prod.mk.injEq .. ▸ h1
        subst hk; subst hv
        simp [alookup]
      · by_cases hk : k = k0
        · subst hk
          have : alookup t k ≠ none := by
            intro hn
            have := ih hnd.2 h1
            rw [hn] at this
            exact Option.noConfusion this
          exact absurd hnd.1 this
        · simp [alookup, hk, ih hnd.2 h1]

theorem aupdate_cons (s : AList α β) (e : α × β) (p : AList α β) :
    aupdate s (e :: p) = aupdate (ainsert s e.1 e.2) p := rfl

theorem alookup_aupdate_not_mem (p s : AList α β) (k : α)
    (h : alookup p k = none) : alookup (aupdate s p) k = alookup s k := by
  induction p generalizing s with
  | nil => rfl
  | cons e t ih =>
      obtain ⟨k0, v0⟩ := e
      by_cases hk : k = k0
      · subst hk
        simp [alookup] at h
      · simp [alookup, hk] at h
        rw [aupdate_cons, ih _ h, alookup_ainsert]
        simp [hk]

theorem alookup_aupdate_mem (p s : AList α β) (k : α) (v : β)
    (hnd : nodupKeys p = true) (h : alookup p k = some v) :
    alookup (aupdate s p) k = some v := by
  induction p generalizing s with
  | nil => simp [alookup] at h
  | cons e t ih =>
      obtain ⟨k0, v0⟩ := e
      simp [nodupKeys] at hnd
      by_cases hk : k = k0
      · subst hk
        simp [alookup] at h
        subst h
        rw [aupdate_cons, alookup_aupdate_not_mem t _ k hnd.1]
        exact alookup_ainsert_self s k v0
      · simp [alookup, hk] at h
        exact ih _ hnd.2 h

theorem aupdate_noop (p s : AList α β)
    (h : ∀ e ∈ p, alookup s e.1 = some e.2) : aupdate s p = s := by
  induction p generalizing s with
  | nil => rfl
  | cons e t ih =>
      rw [aupdate_cons, ainsert_self s e.1 e.2 (h e (by simp))]
      exact ih s (fun e' he' => h e' (by simp [he']))

theorem aupdate_idem (p s : AList α β) (hnd : nodupKeys p = true) :
    aupdate (aupdate s p) p = aupdate s p := by
  refine aupdate_noop p _ (fun e he => ?_)
  exact alookup_aupdate_mem p s e.1 e.2 hnd (mem_alookup p e.1 e.2 hnd he)

end AListLemmas

section ClientLemmas

@[simp] theorem is_down_state_seq (l : Liveness) (s : ClientState) :
    (is_down l s).state.request_seq = s.request_seq := rfl

@[simp] theorem is_down_state_status (l : Liveness) (s : ClientState) :
    (is_down l s).state.req_status = s.req_status := rfl

@[simp] theorem is_down_state_reply (l : Liveness) (s : ClientState) :
    (is_down l s).state.req_reply = s.req_reply := rfl

@[simp] theorem is_down_state_lang (l : Liveness) (s : ClientState) :
    (is_down l s).state.language = s.language := rfl

theorem is_down_healthy {l : Liveness} (h : healthy l) (s : ClientState) :
    is_down l s = ⟨s, false, false, false, false⟩ := by
  obtain ⟨h1, h2, h3⟩ := h
  simp [is_down, h1, h2, h3]

theorem retryLoop_le (t : Nat → Nat) (hstep : ∀ k, t k + 100 ≤ t (k + 1)) :
    ∀ k, 100 * k ≤ t k := by
  intro k
  induction k with
  | zero => exact Nat.zero_le _
  | succ n ih =>
      have : 100 * n + 100 ≤ t n + 100 := Nat.add_le_add_right ih 100
      calc 100 * (n + 1) = 100 * n + 100 := by ring
        _ ≤ t n + 100 := this
        _ ≤ t (n + 1) := hstep n

theorem retryLoop_blocked (t : Nat → Nat) (hstep : ∀ k, t k + 100 ≤ t (k + 1)) :
    ∀ fuel k, k ≤ 11 → 12 ≤ fuel + k →
      ∃ m, k ≤ m ∧ m ≤ 11 ∧
        retryLoop t (fun _ => false) fuel k = .giveUp m ∧
        1000 < t m ∧ ∀ j, k ≤ j → j < m → t j ≤ 1000 := by
  intro fuel
  induction fuel with
  | zero => intro k hk hf; omega
  | succ f ih =>
      intro k hk hf
      by_cases hb : 1000 < t k
      · refine ⟨k, le_refl k, hk, ?_, hb, fun j h1 h2 => by omega⟩
        simp [retryLoop, hb]
      · push_neg at hb
        have hk10 : k ≤ 10 := by
          have := retryLoop_le t hstep k
          omega
        obtain ⟨m, hm1, hm2, hm3, hm4, hm5⟩ :=
          ih (k + 1) (by omega) (by omega)
        refine ⟨m, by omega, hm2, ?_, hm4, fun j h1 h2 => ?_⟩
        · simpa [retryLoop, Nat.not_lt.2 hb] using hm3
        · rcases Nat.eq_or_lt_of_le h1 with h1 | h1
          · rw [← h1]; exact hb
          · exact hm5 j h1 h2

theorem send_cases (l : Liveness) (t : Nat → Nat) (chan : Nat → Bool)
    (s : ClientState) (m : String) (p : Params) (k : MessageKind) :
    ((send l t chan s m p k).result = some s.request_seq ∧
      (send l t chan s m p k).state.request_seq = s.request_seq + 1 ∧
      (k = .request →
        (send l t chan s m p k).state.req_status =
          ainsert s.req_status s.request_seq m) ∧
      (k = .response ∨ k = .notification →
        (send l t chan s m p k).state.req_status = s.req_status) ∧
      (send l t chan s m p k).state.req_reply = s.req_reply ∧
      (send l t chan s m p k).state.language = s.language) ∨
    ((send l t chan s m p k).result = none ∧
      (send l t chan s m p k).state.request_seq = s.request_seq ∧
      (send l t chan s m p k).state.req_reply = s.req_reply ∧
      (send l t chan s m p k).state.language = s.language) := by
  unfold send
  by_cases hd : (is_down l s).down
  · right; simp [hd]
  · by_cases hc : p.hasCancel
    · right; simp [hd, hc]
    · rcases hr : retryLoop t chan 12 0 with km | km | _
      · left
        cases k <;> simp [hd, hc, hr]
      · right
        cases k <;> simp [hd, hc, hr]
      · right
        cases k <;> simp [hd, hc, hr]

theorem send_fail_seq (l : Liveness) (t : Nat → Nat) (chan : Nat → Bool)
    (s : ClientState) (m : String) (p : Params) (k : MessageKind)
    (h : (send l t chan s m p k).result = none) :
    (send l t chan s m p k).state.request_seq = s.request_seq := by
  rcases send_cases l t chan s m p k with hc | hc
  · rw [h] at hc
    exact Option.noConfusion hc.1
  · exact hc.2.1

end ClientLemmas

section CapabilityLemmas

theorem normStep1_nodup (payload : CapMap) (h : nodupKeys payload = true) :
    nodupKeys (normStep1 payload) = true := by
  unfold normStep1
  split
  · exact nodupKeys_ainsert _ _ _ h
  · exact h

theorem normStep2_nodup (p1 : CapMap) (h : nodupKeys p1 = true) :
    nodupKeys (normStep2 p1) = true := by
  unfold normStep2
  split
  · exact nodupKeys_aerase _ _ h
  · exact h

theorem normalizePayload_nodup (payload : CapMap)
    (h : nodupKeys payload = true) :
    nodupKeys (normalizePayload payload) = true :=
  normStep2_nodup _ (normStep1_nodup _ h)

theorem normStep1_int (payload : CapMap) (k : Int)
    (h : alookup payload tdsKey = some (CapVal.vint k)) :
    normStep1 payload =
      ainsert payload tdsKey
        (CapVal.vsync { TEXT_DOCUMENT_SYNC_OPTIONS with change := k }) := by
  unfold normStep1
  rw [h]

theorem normStep1_null (payload : CapMap)
    (h : alookup payload tdsKey = some CapVal.vnull) :
    normStep1 payload = payload := by
  unfold normStep1
  rw [h]

theorem normalizePayload_int (payload : CapMap) (k : Int)
    (h : alookup payload tdsKey = some (CapVal.vint k)) :
    alookup (normalizePayload payload) tdsKey =
      some (CapVal.vsync { TEXT_DOCUMENT_SYNC_OPTIONS with change := k }) := by
  have h1 := normStep1_int payload k h
  have h2 : alookup (normStep1 payload) tdsKey =
      some (CapVal.vsync { TEXT_DOCUMENT_SYNC_OPTIONS with change := k }) := by
    rw [h1]
    exact alookup_ainsert_self _ _ _
  unfold normalizePayload normStep2
  rw [h2]
  exact h2

theorem normalizePayload_null (payload : CapMap)
    (hnd : nodupKeys payload = true)
    (h : alookup payload tdsKey = some CapVal.vnull) :
    alookup (normalizePayload payload) tdsKey = none := by
  unfold normalizePayload normStep2
  rw [normStep1_null payload h, h]
  exact alookup_aerase_self _ _ hnd

end CapabilityLemmas

section PollLemmas

theorem is_down_t_latched (l : Liveness) (s : ClientState)
    (h : s.transport_unresponsive = true) :
    (is_down l s).transportEmit = false ∧
    (is_down l s).state.transport_unresponsive = true := by
  simp [is_down, h]

theorem is_down_sv_latched (l : Liveness) (s : ClientState)
    (h : s.server_unresponsive = true) :
    (is_down l s).serverEmit = false ∧ (is_down l s).stdioEmit = false ∧
    (is_down l s).state.server_unresponsive = true := by
  simp [is_down, h]

theorem pollCounts_t_zero (l : Liveness) :
    ∀ (n : Nat) (s : ClientState), s.transport_unresponsive = true →
      (pollCounts l s n).2.1 = 0 := by
  intro n
  induction n with
  | zero => intro s h; rfl
  | succ n ih =>
      intro s h
      have h1 := is_down_t_latched l s h
      simp [pollCounts, h1.1, ih _ h1.2]

theorem pollCounts_sv_zero (l : Liveness) :
    ∀ (n : Nat) (s : ClientState), s.server_unresponsive = true →
      (pollCounts l s n).2.2.1 = 0 ∧ (pollCounts l s n).2.2.2 = 0 := by
  intro n
  induction n with
  | zero => intro s h; exact ⟨rfl, rfl⟩
  | succ n ih =>
      intro s h
      have h1 := is_down_sv_latched l s h
      have h2 := ih _ h1.2.2
      constructor <;> simp [pollCounts, h1.1, h1.2.1, h2.1, h2.2]

end PollLemmas

section RunLemmas

end RunLemmas

/-- C2: with a channel that persistently reports the transient would-block
condition, `send` returns no id, transmits nothing, leaves the id counter
unchanged, and emits `sig_went_down` exactly once.  Attempt `k` happens at
time `t k` ms; the hypothesis is the 100 ms sleep between attempts.  The
loop abandons at the first attempt whose elapsed time exceeds the 1000 ms
budget measured from the first attempt (every earlier retry is within the
budget, and at most 12 attempts happen; with exact 100 ms spacing this is
attempt 11, i.e. scheduling slack of one retry interval past the
budget). -/
theorem c2_retry_budget (t : Nat → Nat) (hstep : ∀ k, t k + 100 ≤ t (k + 1))
    (l : Liveness) (hl : healthy l) (s : ClientState) (method : String)
    (params : Params) (hc : params.hasCancel = false) (kind : MessageKind) :
    (send l t chanBlocked s method params kind).result = none ∧
    (send l t chanBlocked s method params kind).transmitted = [] ∧
    (send l t chanBlocked s method params kind).state.request_seq =
      s.request_seq ∧
    (send l t chanBlocked s method params kind).wentDown = 1 ∧
    ∃ k, k ≤ 11 ∧
      (send l t chanBlocked s method params kind).attempts = k + 1 ∧
      1000 < t k ∧ ∀ j, j < k → t j ≤ 1000 := by
  have hdown := is_down_healthy hl s
  obtain ⟨m, hm0, hm11, hloop, hbud, hpre⟩ :=
    retryLoop_blocked t hstep 12 0 (by omega) (by omega)
  have hbl : retryLoop t chanBlocked 12 0 = LoopOut.giveUp m := hloop
  refine ⟨?_, ?_, ?_, ?_, m, hm11, ?_, hbud,
    fun j hj => hpre j (Nat.zero_le j) hj⟩ <;>
    cases kind <;>
      simp [send, hdown, hc, hbl, DownResult.emitCount]

/-- Witness for C2 at the idealized clock and a concrete fresh session. -/
theorem c2_retry_budget_witness :
    (send lvNone t0 chanBlocked st0 "m" p0 MessageKind.request).result = none ∧
    (send lvNone t0 chanBlocked st0 "m" p0 MessageKind.request).wentDown = 1 ∧
    (send lvNone t0 chanBlocked st0 "m" p0 MessageKind.request).attempts = 12 :=
  have h := c2_retry_budget t0 (fun k => by simp [t0]; omega) lvNone
    ⟨rfl, rfl, rfl⟩ st0 "m" p0 rfl MessageKind.request
  ⟨h.1, h.2.2.2.1, by decide⟩

/-- C3, counterexample.  The claim asserts that every inbound error
response with a matching PendingRequest resolves the callback with a null
result and removes the entry, for every session regardless of language.
On the code the whole error branch is guarded by language == "python"
(line 430): a session with language "r" holding a matching in-flight entry
(id 3 in both tables) processes the error without invoking any callback,
without emitting anything, and with both tables untouched. -/
theorem c3_counterexample :
    handleMsg cfg0 reg0 stR ⟨some 3, none, none, some ⟨some "boom", some ["tb"]⟩⟩ =
      Except.ok (stR, []) := by
  decide

/-- C3, amended: only for python-language sessions, an inbound error
response whose id matches a `req_reply` entry invokes the completion
callback with a null result; the error is surfaced through the
server-error signal only in debug or development mode and only when a
traceback is present; and the PendingRequest entries are not removed —
the state is returned unchanged, so the id stays in `req_status` and
`req_reply`. -/
theorem c3_amended_error_resolution (cfg : Config) (reg : String → Bool)
    (s : ClientState) (err : ErrVal) (i : Int) (cb : Nat)
    (hlang : s.language = "python")
    (hcb : alookup s.req_reply (some i) = some cb) :
    handleMsg cfg reg s ⟨some i, none, none, some err⟩ =
      Except.ok (s, errorEvents cfg err ++ [Event.callbackNull i]) := by
  simp [handleMsg, hlang, hcb]

/-- Witness for the amended C3: python session, debug mode, matching
pending entry; the callback fires with a null result, the traceback is
surfaced, and the state (hence both tables) is unchanged. -/
theorem c3_amended_error_resolution_witness :
    handleMsg cfgDbg reg0 stP ⟨some 1, none, none, some ⟨some "boom", some ["tb"]⟩⟩ =
      Except.ok (stP, [Event.sigServerError "tb\nboom", Event.callbackNull 1]) := by
  rw [c3_amended_error_resolution cfgDbg reg0 stP ⟨some "boom", some ["tb"]⟩ 1 5
    rfl (by decide)]
  decide

/-- C4: merging the same `initialize` capability payload twice yields the
same merged server-capability set as merging it once; an integer
`textDocumentSync` is normalized deterministically into the structured
options object whose change field is that integer; and an explicitly-null
`textDocumentSync` is dropped from the merge (so when the previous set has
no such key, the merged set has none either, rather than a default).  The
payload is a dict, hence the no-duplicate-keys hypothesis. -/
theorem c4_capability_merge (state payload s1 : CapMap)
    (hnd : nodupKeys payload = true)
    (h1 : process_server_capabilities state payload = some s1) :
    process_server_capabilities s1 payload = some s1 ∧
    (∀ k : Int, alookup payload tdsKey = some (CapVal.vint k) →
      alookup s1 tdsKey =
        some (CapVal.vsync { TEXT_DOCUMENT_SYNC_OPTIONS with change := k })) ∧
    (alookup payload tdsKey = some CapVal.vnull →
      alookup state tdsKey = none → alookup s1 tdsKey = none) := by
  rcases hv : alookup payload tdsKey with _ | v
  · unfold process_server_capabilities at h1
    rw [hv] at h1
    exact Option.noConfusion h1
  · have hs1 : s1 = aupdate state (normalizePayload payload) := by
      unfold process_server_capabilities at h1
      rw [hv] at h1
      exact (Option.some.inj h1).symm
    have hpn := normalizePayload_nodup payload hnd
    refine ⟨?_, fun k hk => ?_, fun hk hst => ?_⟩
    · unfold process_server_capabilities
      rw [hv]
      show some (aupdate s1 (normalizePayload payload)) = some s1
      rw [hs1, aupdate_idem _ _ hpn]
    · rw [hs1]
      exact alookup_aupdate_mem _ _ _ _ hpn
        (normalizePayload_int payload k (hv.trans hk))
    · rw [hs1,
        alookup_aupdate_not_mem _ _ _
          (normalizePayload_null payload hnd (hv.trans hk))]
      exact hst

/-- Witness for C4 at a concrete state and payload with an integer sync
mode. -/
theorem c4_capability_merge_witness :
    process_server_capabilities [("a", CapVal.vother 1)]
      [(tdsKey, CapVal.vint 2), ("x", CapVal.vother 7)] =
      some [("a", CapVal.vother 1),
        (tdsKey, CapVal.vsync ⟨true, 2, true, true⟩), ("x", CapVal.vother 7)] ∧
    process_server_capabilities
      [("a", CapVal.vother 1),
        (tdsKey, CapVal.vsync ⟨true, 2, true, true⟩), ("x", CapVal.vother 7)]
      [(tdsKey, CapVal.vint 2), ("x", CapVal.vother 7)] =
      some [("a", CapVal.vother 1),
        (tdsKey, CapVal.vsync ⟨true, 2, true, true⟩), ("x", CapVal.vother 7)] :=
  ⟨by decide,
   (c4_capability_merge [("a", CapVal.vother 1)]
      [(tdsKey, CapVal.vint 2), ("x", CapVal.vother 7)]
      [("a", CapVal.vother 1),
        (tdsKey, CapVal.vsync ⟨true, 2, true, true⟩), ("x", CapVal.vother 7)]
      (by decide) (by decide)).1⟩

/-- C5: for each failure category (transport, server, stdio-hosted
server), once the category's process is observed down with its one-shot
flag still clear, any number `n ≥ 1` of consecutive `is_down` polls under
the unchanged liveness environment emits the category's `sig_went_down`
exactly once.  The stdio conjunct carries the hypothesis that the local
server handle is not simultaneously dead: the constructor makes stdio
mode imply an absent local server process, and the stdio block shares the
`server_unresponsive` flag with the server block. -/
theorem c5_liveness_one_shot (l : Liveness) (s : ClientState) (n : Nat)
    (hn : 1 ≤ n) :
    (l.transport_present = true → l.transport_alive = false →
      s.transport_unresponsive = false → (pollCounts l s n).2.1 = 1) ∧
    (l.server_present = true → l.server_alive = false →
      s.server_unresponsive = false → (pollCounts l s n).2.2.1 = 1) ∧
    (l.stdio_present = true → l.stdio_alive = false →
      s.server_unresponsive = false →
      (l.server_present = true → l.server_alive = true) →
      (pollCounts l s n).2.2.2 = 1) := by
  obtain ⟨m, rfl⟩ : ∃ m, n = m + 1 := ⟨n - 1, by omega⟩
  refine ⟨fun hp ha hf => ?_, fun hp ha hf => ?_, fun hp ha hf hsv => ?_⟩
  · have he : (is_down l s).transportEmit = true := by
      simp [is_down, hp, ha, hf]
    have hfl : (is_down l s).state.transport_unresponsive = true := by
      simp [is_down, hp, ha]
    simp [pollCounts, he, pollCounts_t_zero l m _ hfl]
  · have he : (is_down l s).serverEmit = true := by
      simp [is_down, hp, ha, hf]
    have hfl : (is_down l s).state.server_unresponsive = true := by
      simp [is_down, hp, ha]
    simp [pollCounts, he, (pollCounts_sv_zero l m _ hfl).1]
  · have hsvd : (l.server_present && !l.server_alive) = false := by
      cases hsp : l.server_present
      · simp
      · simp [hsv hsp]
    have he : (is_down l s).stdioEmit = true := by
      simp [is_down, hp, ha, hf, hsvd]
    have hfl : (is_down l s).state.server_unresponsive = true := by
      simp [is_down, hp, ha]
    simp [pollCounts, he, (pollCounts_sv_zero l m _ hfl).2]

/-- Witness for C5: transport down, flag clear, three polls, one
emission. -/
theorem c5_liveness_one_shot_witness : (pollCounts lvT st0 3).2.1 = 1 :=
  (c5_liveness_one_shot lvT st0 3 (by omega)).1 rfl rfl rfl

/-- C6, counterexample.  The claim asserts that an inbound response whose
id was never issued by the session mutates nothing and emits no signal.
On the code, an error-carrying response is surfaced before and
independently of the id lookup: a python session in debug mode receiving
an error with unknown id 99 and a traceback emits `sig_server_error`,
contradicting "emits no signal" (state is indeed unchanged). -/
theorem c6_counterexample :
    handleMsg cfgDbg reg0 st0 ⟨some 99, none, none, some ⟨some "boom", some ["tb"]⟩⟩ =
      Except.ok (st0, [Event.sigServerError "tb\nboom"]) := by
  decide

/-- C6, amended: a result-carrying response whose id has no `req_status`
entry is processed without raising, without mutating any state, and
without emitting any signal or callback; an error-carrying response whose
id has no `req_reply` entry likewise leaves the state untouched and
invokes no callback, but a python session may emit the server-error
diagnostic signal (in debug or development mode with a traceback present)
— that emission is independent of whether the id was ever issued; for
other languages nothing at all is emitted. -/
theorem c6_amended_unknown_id (cfg : Config) (reg : String → Bool)
    (s : ClientState) (i : Int) (r : Nat) (err : ErrVal)
    (hs : alookup s.req_status i = none)
    (hr : alookup s.req_reply (some i) = none) :
    handleMsg cfg reg s ⟨some i, none, some (some r), none⟩ =
      Except.ok (s, []) ∧
    (s.language = "python" →
      handleMsg cfg reg s ⟨some i, none, none, some err⟩ =
        Except.ok (s, errorEvents cfg err)) ∧
    (s.language ≠ "python" →
      handleMsg cfg reg s ⟨some i, none, none, some err⟩ =
        Except.ok (s, [])) := by
  refine ⟨?_, fun hl => ?_, fun hl => ?_⟩ <;> simp [handleMsg, hs, hr, *]

/-- Witness for the amended C6: fresh session, unknown id 99. -/
theorem c6_amended_unknown_id_witness :
    handleMsg cfg0 reg0 st0 ⟨some 99, none, some (some 0), none⟩ =
      Except.ok (st0, []) :=
  (c6_amended_unknown_id cfg0 reg0 st0 99 0 ⟨none, none⟩ rfl rfl).1

/-- C7: when the params carry the reserved cancel sentinel, `send` drops
the message silently — it returns no id, transmits nothing on the channel
(zero attempts), and leaves the id counter and both in-flight tables
unchanged — under every liveness environment and channel behaviour. -/
theorem c7_cancel_sentinel (l : Liveness) (t : Nat → Nat)
    (chan : Nat → Bool) (s : ClientState) (method : String) (params : Params)
    (kind : MessageKind) (h : params.hasCancel = true) :
    (send l t chan s method params kind).result = none ∧
    (send l t chan s method params kind).transmitted = [] ∧
    (send l t chan s method params kind).attempts = 0 ∧
    (send l t chan s method params kind).state.request_seq = s.request_seq ∧
    (send l t chan s method params kind).state.req_status = s.req_status ∧
    (send l t chan s method params kind).state.req_reply = s.req_reply := by
  unfold send
  by_cases hd : (is_down l s).down <;> simp [hd, h]

/-- Witness for C7 at a concrete healthy session with a working channel. -/
theorem c7_cancel_sentinel_witness :
    (send lvNone t0 ch1 st0 "m" pCancel MessageKind.request).result = none ∧
    (send lvNone t0 ch1 st0 "m" pCancel MessageKind.request).transmitted = [] ∧
    (send lvNone t0 ch1 st0 "m" pCancel MessageKind.request).state.req_status =
      st0.req_status :=
  have h := c7_cancel_sentinel lvNone t0 ch1 st0 "m" pCancel
    MessageKind.request rfl
  ⟨h.1, h.2.1, h.2.2.2.2.1⟩

/-- C8: an inbound response carrying a matching id but a null result
resolves nothing — processing returns the state unchanged (both tables
keep their entries for that id) and produces no handler invocation,
callback, or signal. -/
theorem c8_null_result (cfg : Config) (reg : String → Bool)
    (s : ClientState) (i : Int) (m : String) (cb : Nat)
    (hs : alookup s.req_status i = some m)
    (hr : alookup s.req_reply (some i) = some cb) :
    handleMsg cfg reg s ⟨some i, none, some none, none⟩ =
      Except.ok (s, []) := by
  simp [handleMsg]

/-- Witness for C8: in-flight request id 1 with callback, null result. -/
theorem c8_null_result_witness :
    handleMsg cfg0 reg0 stP ⟨some 1, none, some none, none⟩ =
      Except.ok (stP, []) :=
  c8_null_result cfg0 reg0 stP 1 "m" 5 (by decide) (by decide)

/-- C9: a successful `send` returns the pre-send counter value and
advances the counter by exactly one, for every message kind — requests,
responses and notifications all consume ids from the same counter — and
only kind = request records a PendingRequest entry in `req_status`
(`req_reply` is never touched by `send`). -/
theorem c9_send_id_advance (l : Liveness) (t : Nat → Nat)
    (chan : Nat → Bool) (s : ClientState) (method : String) (params : Params)
    (kind : MessageKind) (i : Int)
    (h : (send l t chan s method params kind).result = some i) :
    i = s.request_seq ∧
    (send l t chan s method params kind).state.request_seq =
      s.request_seq + 1 ∧
    (kind = MessageKind.request →
      (send l t chan s method params kind).state.req_status =
        ainsert s.req_status s.request_seq method) ∧
    (kind = MessageKind.response ∨ kind = MessageKind.notification →
      (send l t chan s method params kind).state.req_status = s.req_status) ∧
    (send l t chan s method params kind).state.req_reply = s.req_reply := by
  rcases send_cases l t chan s method params kind with hc | hc
  · have hi : i = s.request_seq := by
      have h2 := hc.1
      rw [h] at h2
      exact Option.some.inj h2
    exact ⟨hi, hc.2.1, hc.2.2.1, hc.2.2.2.1, hc.2.2.2.2.1⟩
  · rw [h] at hc
    exact Option.noConfusion hc.1

/-- Witness for C9: a successful notification send from a fresh session
consumes id 1 and advances the counter, recording nothing. -/
theorem c9_send_id_advance_witness :
    (1 : Int) = st0.request_seq ∧
    (send lvNone t0 ch1 st0 "m" p0 MessageKind.notification).state.request_seq =
      st0.request_seq + 1 ∧
    (send lvNone t0 ch1 st0 "m" p0 MessageKind.notification).state.req_status =
      st0.req_status :=
  have h := c9_send_id_advance lvNone t0 ch1 st0 "m" p0
    MessageKind.notification 1 (by decide)
  ⟨h.1, h.2.1, h.2.2.2.1 (Or.inr rfl)⟩

/-- C10: for a method with a registered sender, params containing
`response_callback` but not `requires_response` make `perform_request`
raise KeyError (no id is returned); the callback is registered against the
returned id exactly when both keys are present and the flag is true, and
in every other non-raising case the reply table is untouched. -/
theorem c10_perform_request (sentId : Option Int) (s : ClientState)
    (params : Params) (cb : Nat)
    (h : params.response_callback = some cb) :
    (params.requires_response = none →
      perform_request true sentId s params = Except.error ()) ∧
    (params.requires_response = some true →
      perform_request true sentId s params =
        Except.ok ({ s with req_reply := ainsert s.req_reply sentId cb },
          some sentId)) ∧
    (params.requires_response = some false →
      perform_request true sentId s params = Except.ok (s, some sentId)) ∧
    (∀ p' : Params, p'.response_callback = none →
      perform_request true sentId s p' = Except.ok (s, some sentId)) := by
  refine ⟨fun h2 => ?_, fun h2 => ?_, fun h2 => ?_, fun p' h2 => ?_⟩ <;>
    simp [perform_request, h, h2]

/-- Witness for C10: a callback without the requires-response key raises;
with the flag true it is registered under the returned id. -/
theorem c10_perform_request_witness :
    perform_request true (some 4) st0 ⟨false, some 7, none, 0⟩ =
      Except.error () ∧
    perform_request true (some 4) st0 ⟨false, some 7, some true, 0⟩ =
      Except.ok ({ st0 with req_reply := ainsert st0.req_reply (some 4) 7 },
        some (some 4)) :=
  ⟨(c10_perform_request (some 4) st0 ⟨false, some 7, none, 0⟩ 7 rfl).1 rfl,
   (c10_perform_request (some 4) st0 ⟨false, some 7, some true, 0⟩ 7 rfl).2.1 rfl⟩

end Spyder
